import Mathlib

/-!
# Verification of the Ph_Care subdomain-takeover scanner core

Shallow embedding of the scan pipeline and risk-classification engine
(`lib/scanner`: `identifyProvider`, `checkFingerprint`, `classifyRisk`,
`determineSecurityIssue`, `dnsLookup`, `httpProbe`, `scanSubdomain`,
`parseDomainsFromText`).

The fingerprint and provider catalogs (`FINGERPRINTS`, `PROVIDER_MAP`) are
external reference data replaced wholesale through the configuration
endpoint; they are modelled as ordered association lists, matching
JavaScript `Object.entries` insertion-order iteration.

The network effects (`fetch` against the DNS-over-HTTPS resolver and the
probed host) are modelled by passing the outcome of each network call as
an explicit value; everything the source computes from those outcomes is
embedded as pure functions.
-/

namespace PhCare

/-! ## JavaScript string primitives

The source operates on JavaScript strings.  The helpers below reproduce
the exact String.prototype methods used, on `List Char`.  JavaScript
indexes by UTF-16 code units while `List Char` is by code point; the two
agree on all characters below U+10000, which covers hostnames and the
string literals of the source.
-/

/-- `needle` occurs at the start of `hay` (String.prototype.startsWith). -/
def prefixChars : List Char → List Char → Bool
  | [], _ => true
  | _ :: _, [] => false
  | a :: as, b :: bs => a == b && prefixChars as bs

/-- `needle` occurs somewhere in `hay` (scanning left to right). -/
def substrChars (needle : List Char) : List Char → Bool
  | [] => prefixChars needle []
  | c :: t => prefixChars needle (c :: t) || substrChars needle (c :: t).tail

/-- JavaScript `hay.includes(needle)`. -/
def strIncludes (hay needle : String) : Bool :=
  substrChars needle.toList hay.toList

/-- JavaScript whitespace for `trim` (ASCII range plus NBSP; the rarer
Unicode space separators never occur in the inputs considered here). -/
def isJsSpace (c : Char) : Bool :=
  c == ' ' || c == '\t' || c == '\n' || c == '\r' ||
  c == '\x0b' || c == '\x0c' || c == Char.ofNat 160

/-- JavaScript `s.trim()`. -/
def trimJS (s : String) : String :=
  let l1 := s.toList.dropWhile isJsSpace
  String.mk ((l1.reverse.dropWhile isJsSpace).reverse)

/-- JavaScript `s.toLowerCase()` (ASCII case mapping, which is all that
hostnames and the catalog keys exercise). -/
def lowerStr (s : String) : String :=
  String.mk (s.toList.map Char.toLower)

/-- JavaScript `s.replace(/\.$/, "")`: strip one trailing dot. -/
def stripTrailingDot (s : String) : String :=
  match s.toList.getLast? with
  | some '.' => String.mk s.toList.dropLast
  | _ => s

/-- A double or single quote character (39 is the single quote). -/
def isQuote (c : Char) : Bool := c == '"' || c == Char.ofNat 39

/-- JavaScript `s.replace(/^["']|["']$/g, "")`: strip one leading and one
trailing quote character. -/
def stripQuotes (s : String) : String :=
  let cs := s.toList
  let cs1 := match cs with
    | c :: t => if isQuote c then t else cs
    | [] => []
  let cs2 := match cs1.getLast? with
    | some c => if isQuote c then cs1.dropLast else cs1
    | none => cs1
  String.mk cs2

/-- JavaScript `s.replace(/^https?:\/\//, "")`. -/
def stripProtocol (s : String) : String :=
  if prefixChars "https://".toList s.toList then String.mk (s.toList.drop 8)
  else if prefixChars "http://".toList s.toList then String.mk (s.toList.drop 7)
  else s

/-- JavaScript `s.replace(/\/$/, "")`: strip one trailing slash. -/
def stripTrailingSlash (s : String) : String :=
  match s.toList.getLast? with
  | some '/' => String.mk s.toList.dropLast
  | _ => s

/-- JavaScript `text.split(/\r?\n/)` over a reversed accumulator: a
newline ends the current line, consuming one carriage return immediately
before it. -/
def splitLinesAux : List Char → List Char → List String
  | [], acc => [String.mk acc.reverse]
  | '\n' :: rest, acc =>
      let acc' := match acc with
        | '\r' :: t => t
        | _ => acc
      String.mk acc'.reverse :: splitLinesAux rest []
  | c :: rest, acc => splitLinesAux rest (c :: acc)

/-- JavaScript `text.split(/\r?\n/)`. -/
def splitLinesJS (t : String) : List String :=
  splitLinesAux t.toList []

/-- JavaScript `line.split(",")`. -/
def splitCommaAux : List Char → List Char → List String
  | [], acc => [String.mk acc.reverse]
  | ',' :: rest, acc => String.mk acc.reverse :: splitCommaAux rest []
  | c :: rest, acc => splitCommaAux rest (c :: acc)

/-- JavaScript `line.split(",")`. -/
def splitCommaJS (t : String) : List String :=
  splitCommaAux t.toList []

/-! ## Data model (`lib/scanner/types.ts`, `lib/scanner/scanner.ts`) -/

/-- The `RiskLevel` string union. -/
inductive RiskLevel
  | CRITICAL | HIGH | MEDIUM | INFO | LOW
deriving DecidableEq, Repr

/-- The literal string a `RiskLevel` value denotes in the source. -/
def RiskLevel.str : RiskLevel → String
  | .CRITICAL => "CRITICAL"
  | .HIGH => "HIGH"
  | .MEDIUM => "MEDIUM"
  | .INFO => "INFO"
  | .LOW => "LOW"

/-- The `dnsStatus` string union. -/
inductive DnsStatus
  | CNAME | A | NXDOMAIN
deriving DecidableEq, Repr

/-- The literal string a `DnsStatus` value denotes in the source. -/
def DnsStatus.str : DnsStatus → String
  | .CNAME => "CNAME"
  | .A => "A"
  | .NXDOMAIN => "NXDOMAIN"

/-- The `ScanResult` record returned per hostname. -/
structure ScanResult where
  subdomain : String
  cname : String
  dnsStatus : DnsStatus
  httpStatus : String
  provider : String
  signature : String
  dnsLookupResult : String
  securityIssue : String
  riskLevel : RiskLevel
  riskLabel : String
  serverHeader : String
  scannedAt : String
deriving DecidableEq, Repr

/-- The record produced by `dnsLookup`. -/
structure DnsOutcome where
  dnsStatus : DnsStatus
  cnameTarget : String
  dnsLookupText : String
deriving DecidableEq, Repr

/-- The mutable `result` record of `httpProbe`, also its return value. -/
structure ProbeOutcome where
  status : Nat
  body : String
  error : String
  serverHeader : String
deriving DecidableEq, Repr

/-- `FINGERPRINTS`: provider-domain key to signature list, in insertion
order (`Object.entries`). -/
abbrev FingerprintCatalog := List (String × List String)

/-- `PROVIDER_MAP`: provider-domain key to display name, in insertion
order (`Object.entries`). -/
abbrev ProviderCatalog := List (String × String)

/-- JavaScript `PROVIDER_MAP[key]` (exact key access). -/
def lookupProvider (pmap : ProviderCatalog) (key : String) : Option String :=
  (pmap.find? (fun e => e.1 == key)).map (fun e => e.2)

/-- JavaScript `PROVIDER_MAP[providerDomain] || providerDomain`: the
display name, falling back to the domain when absent or empty. -/
def providerDisplay (pmap : ProviderCatalog) (providerDomain : String) : String :=
  match lookupProvider pmap providerDomain with
  | some v => if v == "" then providerDomain else v
  | none => providerDomain

/-! ## `identifyProvider` and `checkFingerprint` -/

/-- `identifyProvider(cnameTarget)`: first catalog entry whose key occurs
in the lowercased target wins; otherwise the sentinel. -/
def identifyProvider (pmap : ProviderCatalog) (cnameTarget : String) : String :=
  let lower := lowerStr cnameTarget
  match pmap.find? (fun e => strIncludes lower e.1) with
  | some e => e.2
  | none => "Unknown Provider"

/-- The fallback loop of `checkFingerprint`: first `(providerDomain, sig)`
pair, in catalog order then signature order, whose signature occurs in the
body. -/
def fallbackFind (responseBody : String) : FingerprintCatalog → Option (String × String)
  | [] => none
  | (d, sigs) :: rest =>
      match sigs.find? (fun sig => strIncludes responseBody sig) with
      | some sig => some (d, sig)
      | none => fallbackFind responseBody rest

/-- `checkFingerprint(cnameTarget, responseBody)`: scoped pass over the
first catalog entry whose key occurs in the lowercased target, then a
fallback pass over every entry when no key matched. -/
def checkFingerprint (fps : FingerprintCatalog) (pmap : ProviderCatalog)
    (cnameTarget responseBody : String) : Bool × String :=
  let lower := lowerStr cnameTarget
  match fps.find? (fun e => strIncludes lower e.1) with
  | some e =>
      match e.2.find? (fun sig => strIncludes responseBody sig) with
      | some sig => (true, sig)
      | none => (false, "Service protected or active")
  | none =>
      match fallbackFind responseBody fps with
      | some ds => (true, ds.2 ++ " (matched " ++ providerDisplay pmap ds.1 ++ ")")
      | none => (false, "No known signature")

/-! ## `classifyRisk` and `determineSecurityIssue` -/

/-- The hard-coded safe Google targets of the classifier's first rule. -/
def googleMainNames : List String := ["google.com", "www.google.com", "maps.google.com"]

/-- The fingerprint strings that do not count as a vulnerable match. -/
def fingerprintSentinels : List String :=
  ["", "No known signature", "Service protected or active"]

/-- `classifyRisk(dnsStatus, httpStatus, fingerprint, httpError, provider,
cnameTarget)`: ordered rule evaluation, first matching rule wins.  The
`httpError` parameter is unused in the source body as well. -/
def classifyRisk (dnsStatus : String) (httpStatus : Nat) (fingerprint : String)
    (httpError : String) (provider : String) (cnameTarget : String) :
    RiskLevel × String :=
  let _ := httpError
  let cleanCname := stripTrailingDot (lowerStr cnameTarget)
  if googleMainNames.contains cleanCname then
    (.LOW, "Pointed to Google Main (Safe/Not Exploitable)")
  else if provider == "Unknown Provider" && strIncludes cleanCname "google.com" then
    (.LOW, "Pointed to Generic Google (Safe)")
  else
    let isThirdParty : Bool := provider != "Unknown Provider"
    let isBroken : Bool := httpStatus == 0 || decide (httpStatus ≥ 400)
    let hasFingerprint : Bool := ! fingerprintSentinels.contains fingerprint
    if dnsStatus == "CNAME" && isBroken && !isThirdParty then
      (.MEDIUM, "DNS Hygiene: Self-Pointing or Misconfigured CNAME (Low Likelihood, Some Potential)")
    else if dnsStatus == "A" && isBroken && !isThirdParty then
      (.MEDIUM, "DNS Hygiene: Misconfigured/Dead A Record (Low Likelihood, Some Potential)")
    else if isThirdParty && isBroken && hasFingerprint then
      (.CRITICAL, "Confirmed Subdomain Takeover (All 3 Conditions Met)")
    else if isThirdParty && httpStatus == 200 && hasFingerprint then
      (.CRITICAL, "Subdomain Takeover (Service Responding 200 with Fingerprint)")
    else if isThirdParty && isBroken then
      (.HIGH, "Dangling Pointer to 3rd Party (No Fingerprint)")
    else if !isThirdParty && hasFingerprint && isBroken then
      (.HIGH, "Suspicious Content (Fingerprint Found but Provider Unknown)")
    else if dnsStatus == "NXDOMAIN" then
      (.LOW, "No DNS Record - Not Exploitable")
    else if (dnsStatus == "CNAME" || dnsStatus == "A") && httpStatus == 200 then
      (.INFO, "Active Subdomain - Verify Ownership")
    else
      (.INFO, "Orphaned or Misconfigured Subdomain")

/-- `determineSecurityIssue(dnsStatus, httpStatus, fingerprint, riskLevel)`. -/
def determineSecurityIssue (dnsStatus : String) (httpStatus : Nat)
    (fingerprint : String) (riskLevel : String) : String :=
  let hasPointer : Bool := dnsStatus == "CNAME" || dnsStatus == "A"
  let isVulnerableFp : Bool := ! fingerprintSentinels.contains fingerprint
  if riskLevel == "CRITICAL" then "Subdomain Takeover"
  else if riskLevel == "HIGH" then "Dangling DNS Record"
  else if riskLevel == "MEDIUM" then "DNS Hygiene Misconfiguration"
  else if hasPointer && httpStatus == 200 && !isVulnerableFp then "None - Active Service"
  else if dnsStatus == "NXDOMAIN" then "None - NXDOMAIN"
  else if hasPointer && (decide (httpStatus ≥ 400) || httpStatus == 0) then
    "Potential Misconfiguration"
  else "Potential Misconfiguration"

/-! ## `dnsLookup`

Modelled over the outcomes of the three possible `fetch`-and-parse calls:
the primary CNAME query, the secondary A query against the CNAME target,
and the A query against the hostname.  `Fetched.ok` carries the parsed
JSON's optional `Answer` array and optional `Status` field; `Fetched.err`
is a network error, timeout, or JSON parse failure of that call.
-/

/-- One element of a DNS JSON `Answer` array (`type` and `data` fields;
`type` is a Lean keyword, hence `typ`). -/
structure DnsAnswer where
  typ : Nat
  data : String
deriving DecidableEq, Repr

/-- Outcome of one `fetch` + `res.json()` call against dns.google. -/
inductive Fetched
  | ok (answer : Option (List DnsAnswer)) (status : Option Nat)
  | err (msg : String)
deriving DecidableEq, Repr

/-- Rendering of `aData.Status` inside a template literal: an absent field
prints as `undefined`. -/
def statusText : Option Nat → String
  | some n => toString n
  | none => "undefined"

/-- `dnsLookup(subdomain)` as a function of the three network-call
outcomes.  The outer try/catch makes a primary or A-query failure collapse
to NXDOMAIN with the error in the trail; the secondary check has its own
catch that only clears `cnameResolves`. -/
def dnsLookup (primary secondary aQuery : Fetched) : DnsOutcome :=
  match primary with
  | .err m => ⟨.NXDOMAIN, "", "DNS Error: " ++ m⟩
  | .ok answer _ =>
    let cnameRecord := match answer with
      | some l => l.find? (fun (a : DnsAnswer) => a.typ == 5)
      | none => none
    match cnameRecord with
    | some r =>
      let cname := stripTrailingDot r.data
      let cnameResolves : Bool := match secondary with
        | .ok _ st => !(st == some 3)
        | .err _ => false
      let note := if cnameResolves then "" else " [CNAME target NXDOMAIN]"
      ⟨.CNAME, cname, "CNAME -> " ++ cname ++ note⟩
    | none =>
      match aQuery with
      | .err m => ⟨.NXDOMAIN, "", "DNS Error: " ++ m⟩
      | .ok aAns aSt =>
        if aSt == some 3 then ⟨.NXDOMAIN, "", "NXDOMAIN"⟩
        else
          let fromAnswer : Option DnsOutcome := match aAns with
            | none => none
            | some l =>
              let aRecords := l.filter (fun (a : DnsAnswer) => a.typ == 1)
              match aRecords with
              | ip :: _ =>
                  some ⟨.A, ip.data,
                    "A -> " ++ String.intercalate ", " (aRecords.map (fun (a : DnsAnswer) => a.data))⟩
              | [] =>
                  match l.find? (fun (a : DnsAnswer) => a.typ == 5) with
                  | some r2 =>
                      let c := stripTrailingDot r2.data
                      some ⟨.CNAME, c, "CNAME -> " ++ c⟩
                  | none => none
          match fromAnswer with
          | some r => r
          | none =>
            if aSt == some 0 && aAns.isNone then ⟨.NXDOMAIN, "", "No DNS Answer"⟩
            else ⟨.NXDOMAIN, "", "DNS Status: " ++ statusText aSt⟩

/-! ## `httpProbe` -/

/-- Outcome of `await resp.text()` once `fetch` has resolved: the body
text, a rejection named `AbortError`, or any other `Error` rejection. -/
inductive BodyRead
  | ok (text : String)
  | abortErr
  | failErr
deriving DecidableEq, Repr

/-- Outcome of one attempt against `scheme://subdomain`, following the
try-block's statement order: `fetch` either rejects (a rejection named
`AbortError`, or any other `Error`) or resolves with a status and optional
`server` header, after which `resp.text()` is awaited separately — by that
point `result.status = resp.status` has already executed, so a failing
body read leaves the status assigned. -/
inductive HttpAttempt
  | fetched (status : Nat) (server : Option String) (body : BodyRead)
  | abortErr
  | failErr
deriving DecidableEq, Repr

/-- The `for (const scheme of ["https", "http"])` loop of `httpProbe`,
threading the mutable `result` record.  A fully read response returns
status, body truncated to 50000 units, `server` header with `|| ""`, and a
cleared error.  When `fetch` resolved, `result.status` is assigned before
the body read, so the catch paths after a body-read rejection keep that
status.  A rejection named `AbortError` (from either await) returns
immediately with `error = "Timeout"`.  Any other rejection clears the
error on the https attempt and continues the loop, or sets
`"Connection Failed"` and returns on the http attempt.  The line after the
loop (`if (!result.error) result.error = "Connection Failed"`) is kept for
the empty-list case even though the http iteration always returns. -/
def probeGo (attempt : String → HttpAttempt) : List String → ProbeOutcome → ProbeOutcome
  | [], result =>
      if result.error == "" then { result with error := "Connection Failed" } else result
  | scheme :: rest, result =>
      match attempt scheme with
      | .fetched st sv (.ok text) =>
          { status := st, body := String.mk (text.toList.take 50000),
            error := "", serverHeader := sv.getD "" }
      | .fetched st _ .abortErr =>
          { result with status := st, error := "Timeout" }
      | .abortErr => { result with error := "Timeout" }
      | .fetched st _ .failErr =>
          let r := { result with
                     status := st,
                     error := if scheme == "http" then "Connection Failed" else "" }
          if scheme == "http" then r else probeGo attempt rest r
      | .failErr =>
          let r := { result with
                     error := if scheme == "http" then "Connection Failed" else "" }
          if scheme == "http" then r else probeGo attempt rest r

/-- `httpProbe(subdomain)` as a function of the per-scheme attempt
outcomes. -/
def httpProbe (attempt : String → HttpAttempt) : ProbeOutcome :=
  probeGo attempt ["https", "http"] ⟨0, "", "", ""⟩

/-! ## `scanSubdomain` -/

/-- `scanSubdomain(subdomain)`: the pure assembly of a `ScanResult` from
the DNS outcome, the probe outcome, the catalogs, and the timestamp
(`new Date().toISOString()` passed in as `scannedAt`). -/
def scanSubdomain (fps : FingerprintCatalog) (pmap : ProviderCatalog)
    (subdomain : String) (dnsr : DnsOutcome) (probe : ProbeOutcome)
    (scannedAt : String) : ScanResult :=
  let effectiveCname := if dnsr.cnameTarget == "" then subdomain else dnsr.cnameTarget
  let httpStatusNum := probe.status
  let provider := identifyProvider pmap effectiveCname
  let fp := checkFingerprint fps pmap effectiveCname probe.body
  let isVulnerable := fp.1
  let fingerprint := fp.2
  let rl := classifyRisk dnsr.dnsStatus.str httpStatusNum fingerprint probe.error
      provider effectiveCname
  let securityIssue := determineSecurityIssue dnsr.dnsStatus.str httpStatusNum
      fingerprint rl.1.str
  let signature :=
    if isVulnerable && fingerprint != "" then provider ++ " - " ++ fingerprint
    else if probe.error != "" && httpStatusNum == 0 then provider ++ " - " ++ probe.error
    else if httpStatusNum > 0 then provider ++ " - HTTP " ++ toString httpStatusNum
    else provider ++ " - No Response"
  let httpDisplay :=
    if httpStatusNum == 0 then
      "0 (" ++ (if probe.error == "" then "No Response" else probe.error) ++ ")"
    else toString httpStatusNum
  { subdomain := subdomain, cname := effectiveCname, dnsStatus := dnsr.dnsStatus,
    httpStatus := httpDisplay, provider := provider, signature := signature,
    dnsLookupResult := dnsr.dnsLookupText, securityIssue := securityIssue,
    riskLevel := rl.1, riskLabel := rl.2, serverHeader := probe.serverHeader,
    scannedAt := scannedAt }

/-! ## `parseDomainsFromText` -/

/-- The per-line cleanup of the parse loop: first CSV column, trim, strip
one surrounding quote pair, strip the protocol, strip one trailing
slash. -/
def cleanEntry (line : String) : String :=
  let parts := splitCommaJS line
  let val := trimJS (parts.headD "")
  let val := stripQuotes val
  let val := stripTrailingSlash (stripProtocol val)
  val

/-- Collect the cleaned values that are nonempty and contain a dot. -/
def collectDomains (ls : List String) : List String :=
  ls.filterMap (fun line =>
    let v := cleanEntry line
    if v != "" && strIncludes v "." then some v else none)

/-- JavaScript `[...new Set(domains)]`: remove exact duplicates, keeping
the first occurrence of each string. -/
def dedupKeepFirst : List String → List String :=
  go []
where
  go (seen : List String) : List String → List String
    | [] => []
    | x :: rest => if seen.contains x then go seen rest else x :: go (x :: seen) rest

/-- `parseDomainsFromText(text)`. -/
def parseDomainsFromText (text : String) : List String :=
  let lines := splitLinesJS text
  let firstLine := lowerStr (lines.headD "")
  let skipHeader := strIncludes firstLine "subdomain" || strIncludes firstLine "domain"
  let body := if skipHeader then lines.tail else lines
  dedupKeepFirst (collectDomains body)

/-- Modelled from the spec: the phrase "the secondary query reports no such
domain" of the Name Resolver contract.  A parsed secondary response reports
no such domain when its authoritative `Status` is 3; a call that errors or
times out reports nothing. -/
def secondaryReportsNoSuchDomain : Fetched → Bool
  | .ok _ st => st == some 3
  | .err _ => false

/-! ## Helper lemmas -/

/-- Each of the hard-coded Google-main names contains `google.com`. -/
theorem mem_google_includes (s : String) (h : s ∈ googleMainNames) :
    strIncludes s "google.com" = true := by
  fin_cases h <;> decide

/-- A hit of the fallback loop is a genuine catalog signature occurring in
the body. -/
theorem fallbackFind_some {body : String} {fps : FingerprintCatalog} {d sig : String}
    (h : fallbackFind body fps = some (d, sig)) :
    ∃ sigs, (d, sigs) ∈ fps ∧ sig ∈ sigs ∧ strIncludes body sig = true := by
  induction fps with
  | nil => simp [fallbackFind] at h
  | cons e rest ih =>
    obtain ⟨k, sigs⟩ := e
    rw [fallbackFind] at h
    rcases hfind : sigs.find? (fun s => strIncludes body s) with _ | s
    · rw [hfind] at h
      obtain ⟨sigs2, hmem, hs, hi⟩ := ih h
      exact ⟨sigs2, List.mem_cons_of_mem _ hmem, hs, hi⟩
    · rw [hfind] at h
      simp only [Option.some.injEq, Prod.mk.injEq] at h
      obtain ⟨rfl, rfl⟩ := h
      exact ⟨sigs, List.mem_cons_self _ _, List.mem_of_find?_eq_some hfind,
        List.find?_some hfind⟩

/-- When the fallback loop misses, no catalog signature occurs in the
body. -/
theorem fallbackFind_none {body : String} {fps : FingerprintCatalog}
    (h : fallbackFind body fps = none) :
    ∀ d sigs, (d, sigs) ∈ fps → ∀ sig ∈ sigs, strIncludes body sig = false := by
  induction fps with
  | nil => intro d sigs hmem; simp at hmem
  | cons e rest ih =>
    obtain ⟨k, ksigs⟩ := e
    rw [fallbackFind] at h
    rcases hfind : ksigs.find? (fun s => strIncludes body s) with _ | s
    · rw [hfind] at h
      intro d sigs hmem sig hsig
      rcases List.mem_cons.mp hmem with heq | htail
      · obtain ⟨rfl, rfl⟩ := Prod.mk.injEq .. ▸ heq
        have := List.find?_eq_none.mp hfind sig hsig
        simpa using this
      · exact ih h d sigs htail sig hsig
    · rw [hfind] at h
      simp at h

/-- The deduplication loop yields a duplicate-free list avoiding the seen
accumulator. -/
theorem dedup_go_spec (l seen : List String) :
    (dedupKeepFirst.go seen l).Nodup ∧ ∀ x ∈ dedupKeepFirst.go seen l, x ∉ seen := by
  induction l generalizing seen with
  | nil => simp [dedupKeepFirst.go]
  | cons x rest ih =>
    rw [dedupKeepFirst.go]
    by_cases hx : x ∈ seen
    · simpa [hx] using ih seen
    · obtain ⟨hnd, hnotin⟩ := ih (x :: seen)
      rw [if_neg (by simpa using hx)]
      constructor
      · refine List.Nodup.cons ?_ hnd
        intro hmem
        exact hnotin x hmem (List.mem_cons_self _ _)
      · intro y hy
        rcases List.mem_cons.mp hy with rfl | htail
        · simpa using hx
        · intro hseen
          exact hnotin y htail (List.mem_cons_of_mem _ hseen)

/-! ## Claims -/

/-- C1 (counterexample): the claim "every hostname with dnsStatus NXDOMAIN
classifies as LOW / No DNS Record - Not Exploitable / None - NXDOMAIN" is
false as stated: a hostname containing a provider-catalog key (here the
spec's own S3-style entry) that yields NXDOMAIN and no HTTP response is
classified HIGH / Dangling Pointer / Dangling DNS Record, because the
third-party rules precede the NXDOMAIN rule. -/
theorem C1_counterexample :
    (scanSubdomain [] [("s3.amazonaws.com", "AWS S3")] "files.demo.s3.amazonaws.com"
        ⟨.NXDOMAIN, "", "NXDOMAIN"⟩ ⟨0, "", "Connection Failed", ""⟩ "t").dnsStatus =
      .NXDOMAIN ∧
    (scanSubdomain [] [("s3.amazonaws.com", "AWS S3")] "files.demo.s3.amazonaws.com"
        ⟨.NXDOMAIN, "", "NXDOMAIN"⟩ ⟨0, "", "Connection Failed", ""⟩ "t").riskLevel =
      .HIGH ∧
    (scanSubdomain [] [("s3.amazonaws.com", "AWS S3")] "files.demo.s3.amazonaws.com"
        ⟨.NXDOMAIN, "", "NXDOMAIN"⟩ ⟨0, "", "Connection Failed", ""⟩ "t").riskLabel ≠
      "No DNS Record - Not Exploitable" ∧
    (scanSubdomain [] [("s3.amazonaws.com", "AWS S3")] "files.demo.s3.amazonaws.com"
        ⟨.NXDOMAIN, "", "NXDOMAIN"⟩ ⟨0, "", "Connection Failed", ""⟩ "t").securityIssue ≠
      "None - NXDOMAIN" := by
  refine ⟨rfl, by decide, by decide, by decide⟩

/-- C1 (amended): for every hostname whose resolution yields NXDOMAIN
(empty resolved target), provided the provider identified from the
hostname itself is unrecognized, the lowercased hostname (trailing dot
stripped) does not contain `google.com`, and the fingerprint matcher
returned no vulnerable match, the pipeline classifies it LOW /
"No DNS Record - Not Exploitable" with securityIssue "None - NXDOMAIN". -/
theorem C1_nxdomain_low (fps : FingerprintCatalog) (pmap : ProviderCatalog)
    (subdomain : String) (dnsr : DnsOutcome) (probe : ProbeOutcome) (ts : String)
    (hdns : dnsr.dnsStatus = .NXDOMAIN) (hempty : dnsr.cnameTarget = "")
    (hp : identifyProvider pmap subdomain = "Unknown Provider")
    (hgoog : strIncludes (stripTrailingDot (lowerStr subdomain)) "google.com" = false)
    (hf : (checkFingerprint fps pmap subdomain probe.body).2 ∈ fingerprintSentinels) :
    (scanSubdomain fps pmap subdomain dnsr probe ts).riskLevel = .LOW ∧
    (scanSubdomain fps pmap subdomain dnsr probe ts).riskLabel =
      "No DNS Record - Not Exploitable" ∧
    (scanSubdomain fps pmap subdomain dnsr probe ts).securityIssue = "None - NXDOMAIN" := by
  obtain ⟨ds, ct, tr⟩ := dnsr
  simp only at hdns hempty
  subst hdns hempty
  have hgm : stripTrailingDot (lowerStr subdomain) ∉ googleMainNames := by
    intro hmem
    have hx := mem_google_includes _ hmem
    rw [hgoog] at hx
    exact Bool.false_ne_true hx
  simp [scanSubdomain, DnsStatus.str, hp, classifyRisk, hgm, hgoog, hf,
    determineSecurityIssue, RiskLevel.str]

/-- C1 (witness): a plain unresolvable hostname with no provider match, no
Google name, and no fingerprint is indeed LOW / not exploitable /
None - NXDOMAIN. -/
theorem C1_nxdomain_low_witness :
    (scanSubdomain [] [] "gone.example.com" ⟨.NXDOMAIN, "", "NXDOMAIN"⟩
        ⟨0, "", "Connection Failed", ""⟩ "t").riskLevel = .LOW ∧
    (scanSubdomain [] [] "gone.example.com" ⟨.NXDOMAIN, "", "NXDOMAIN"⟩
        ⟨0, "", "Connection Failed", ""⟩ "t").riskLabel =
      "No DNS Record - Not Exploitable" ∧
    (scanSubdomain [] [] "gone.example.com" ⟨.NXDOMAIN, "", "NXDOMAIN"⟩
        ⟨0, "", "Connection Failed", ""⟩ "t").securityIssue = "None - NXDOMAIN" :=
  C1_nxdomain_low [] [] "gone.example.com" ⟨.NXDOMAIN, "", "NXDOMAIN"⟩
    ⟨0, "", "Connection Failed", ""⟩ "t" rfl rfl rfl (by decide) (by decide)

/-- C2: whenever the effective resolved name (lowercased, trailing dot
stripped) is none of the hard-coded Google names, the provider is
recognized, the HTTP status is 0 or at least 400, and the matched
signature is neither empty nor a sentinel, the classifier returns
CRITICAL with the confirmed-takeover label, and the derived securityIssue
is "Subdomain Takeover". -/
theorem C2_confirmed_takeover (dnsStatus : String) (httpStatus : Nat)
    (fingerprint httpError provider cnameTarget : String)
    (hg : stripTrailingDot (lowerStr cnameTarget) ∉ googleMainNames)
    (hp : provider ≠ "Unknown Provider")
    (hb : httpStatus = 0 ∨ 400 ≤ httpStatus)
    (hf : fingerprint ∉ fingerprintSentinels) :
    classifyRisk dnsStatus httpStatus fingerprint httpError provider cnameTarget =
      (.CRITICAL, "Confirmed Subdomain Takeover (All 3 Conditions Met)") ∧
    determineSecurityIssue dnsStatus httpStatus fingerprint (RiskLevel.CRITICAL).str =
      "Subdomain Takeover" := by
  constructor
  · simp [classifyRisk, hg, hp, hf, hb]
  · simp [determineSecurityIssue, RiskLevel.str]

/-- C2 (witness): a CNAME to a recognized S3 provider answering 404 with
the NoSuchBucket signature is a confirmed takeover. -/
theorem C2_confirmed_takeover_witness :
    classifyRisk "CNAME" 404 "NoSuchBucket" "" "AWS S3" "files.demo.s3.amazonaws.com" =
      (.CRITICAL, "Confirmed Subdomain Takeover (All 3 Conditions Met)") ∧
    determineSecurityIssue "CNAME" 404 "NoSuchBucket" (RiskLevel.CRITICAL).str =
      "Subdomain Takeover" :=
  C2_confirmed_takeover "CNAME" 404 "NoSuchBucket" "" "AWS S3"
    "files.demo.s3.amazonaws.com" (by decide) (by decide) (Or.inr (by decide))
    (by decide)

/-- C3: when the scoped pass recognizes a catalog entry (the first one
whose key occurs in the lowercased target hostname) and none of that
entry's signatures occurs in the response body, the matcher returns
`isVulnerable = false` with the protected/active sentinel — it never falls
through to other entries' signatures, whatever else the body contains. -/
theorem C3_scoped_no_fallthrough (fps : FingerprintCatalog) (pmap : ProviderCatalog)
    (target body k : String) (sigs : List String)
    (hk : fps.find? (fun e => strIncludes (lowerStr target) e.1) = some (k, sigs))
    (hnone : ∀ sig ∈ sigs, strIncludes body sig = false) :
    checkFingerprint fps pmap target body = (false, "Service protected or active") := by
  have hfind : sigs.find? (fun sig => strIncludes body sig) = none :=
    List.find?_eq_none.mpr (fun x hx => by simp [hnone x hx])
  simp only [checkFingerprint, hk, hfind]

/-- C3 (witness): a GitHub Pages host whose body carries only an S3
signature still reports protected/active. -/
theorem C3_scoped_no_fallthrough_witness :
    checkFingerprint [("github.io", ["404 gh page missing"]),
        ("s3.amazonaws.com", ["NoSuchBucket"])] [] "x.github.io" "NoSuchBucket" =
      (false, "Service protected or active") :=
  C3_scoped_no_fallthrough
    [("github.io", ["404 gh page missing"]), ("s3.amazonaws.com", ["NoSuchBucket"])]
    [] "x.github.io" "NoSuchBucket" "github.io" ["404 gh page missing"]
    (by decide) (by decide)

/-- C4: when no catalog key occurs in the target hostname, the fallback
pass governs: if some catalog entry's signature occurs in the body the
matcher returns `isVulnerable = true` with that signature annotated by the
owning provider's display name (`PROVIDER_MAP[domain] || domain`); if no
signature occurs anywhere it returns the "No known signature" sentinel. -/
theorem C4_fallback_pass (fps : FingerprintCatalog) (pmap : ProviderCatalog)
    (target body : String)
    (hk : fps.find? (fun e => strIncludes (lowerStr target) e.1) = none) :
    ((∃ d sigs sig, (d, sigs) ∈ fps ∧ sig ∈ sigs ∧ strIncludes body sig = true) →
      (checkFingerprint fps pmap target body).1 = true ∧
      ∃ d sigs sig, (d, sigs) ∈ fps ∧ sig ∈ sigs ∧ strIncludes body sig = true ∧
        (checkFingerprint fps pmap target body).2 =
          sig ++ " (matched " ++ providerDisplay pmap d ++ ")") ∧
    ((∀ d sigs, (d, sigs) ∈ fps → ∀ sig ∈ sigs, strIncludes body sig = false) →
      checkFingerprint fps pmap target body = (false, "No known signature")) := by
  constructor
  · intro hex
    rcases hfb : fallbackFind body fps with _ | ⟨d, s⟩
    · exfalso
      obtain ⟨d, sigs, sig, hmem, hsig, hinc⟩ := hex
      have := fallbackFind_none hfb d sigs hmem sig hsig
      rw [hinc] at this
      exact absurd this (by simp)
    · obtain ⟨sigs, hmem, hs, hi⟩ := fallbackFind_some hfb
      constructor
      · simp only [checkFingerprint, hk, hfb]
      · refine ⟨d, sigs, s, hmem, hs, hi, ?_⟩
        simp only [checkFingerprint, hk, hfb]
  · intro hall
    have hfb : fallbackFind body fps = none := by
      rcases hfb : fallbackFind body fps with _ | ⟨d, s⟩
      · rfl
      · obtain ⟨sigs, hmem, hs, hi⟩ := fallbackFind_some hfb
        have := hall d sigs hmem s hs
        rw [hi] at this
        exact absurd this (by simp)
    simp only [checkFingerprint, hk, hfb]

/-- C4 (witness): an unrecognized host whose body contains `NoSuchBucket`
yields a vulnerable match annotated with the owning S3 provider. -/
theorem C4_fallback_pass_witness :
    (checkFingerprint [("github.io", ["404 gh page missing"]),
        ("s3.amazonaws.com", ["NoSuchBucket"])] [("s3.amazonaws.com", "AWS S3")]
        "x.example.net" "page shows NoSuchBucket here").1 = true ∧
    ∃ d sigs sig,
      (d, sigs) ∈ [("github.io", ["404 gh page missing"]),
        ("s3.amazonaws.com", ["NoSuchBucket"])] ∧ sig ∈ sigs ∧
      strIncludes "page shows NoSuchBucket here" sig = true ∧
      (checkFingerprint [("github.io", ["404 gh page missing"]),
          ("s3.amazonaws.com", ["NoSuchBucket"])] [("s3.amazonaws.com", "AWS S3")]
          "x.example.net" "page shows NoSuchBucket here").2 =
        sig ++ " (matched " ++
          providerDisplay [("s3.amazonaws.com", "AWS S3")] d ++ ")" :=
  (C4_fallback_pass [("github.io", ["404 gh page missing"]),
      ("s3.amazonaws.com", ["NoSuchBucket"])] [("s3.amazonaws.com", "AWS S3")]
      "x.example.net" "page shows NoSuchBucket here" (by decide)).1
    ⟨"s3.amazonaws.com", ["NoSuchBucket"], "NoSuchBucket", by decide, by decide,
      by decide⟩

/-- C5 (counterexample): the claim that the parsed candidate list is
deduplicated case-insensitively is false: the source deduplicates with an
exact string set, so `a.Com` and `a.com` both survive even though they are
equal ignoring letter case. -/
theorem C5_counterexample :
    parseDomainsFromText "a.Com\na.com" = ["a.Com", "a.com"] ∧
    lowerStr "a.Com" = lowerStr "a.com" ∧
    ¬ List.Pairwise (fun a b => lowerStr a ≠ lowerStr b)
        (parseDomainsFromText "a.Com\na.com") := by
  refine ⟨by decide, by decide, ?_⟩
  decide

/-- C5 (amended): for every input text the candidate hostname list is
deduplicated exactly (case-sensitively): no two entries of the output are
equal as strings. -/
theorem C5_dedup_exact (text : String) : (parseDomainsFromText text).Nodup :=
  (dedup_go_spec _ _).1

/-- C6 (counterexample): the claim that the "target NXDOMAIN" marker is
appended exactly when the secondary query reports no such domain is false:
when the secondary check itself fails (network error), which is not a
no-such-domain report, the marker is still appended. -/
theorem C6_counterexample :
    (dnsLookup (.ok (some [⟨5, "t.example.net."⟩]) (some 0)) (.err "network error")
        (.ok none none)).dnsLookupText =
      "CNAME -> t.example.net [CNAME target NXDOMAIN]" ∧
    secondaryReportsNoSuchDomain (.err "network error") = false :=
  ⟨by decide, rfl⟩

/-- C6 (amended): whenever the primary query's answer contains a CNAME
record, resolution reports dnsStatus CNAME with the trailing root dot
stripped from the resolved target, and the "target NXDOMAIN" marker is
appended to the trail exactly when the secondary A-record check reports no
such domain (Status 3) or itself fails. -/
theorem C6_cname_dangling (l : List DnsAnswer) (st : Option Nat) (r : DnsAnswer)
    (secondary aQuery : Fetched)
    (hfind : l.find? (fun (a : DnsAnswer) => a.typ == 5) = some r) :
    (dnsLookup (.ok (some l) st) secondary aQuery).dnsStatus = .CNAME ∧
    (dnsLookup (.ok (some l) st) secondary aQuery).cnameTarget =
      stripTrailingDot r.data ∧
    ((secondaryReportsNoSuchDomain secondary = true ∨ (∃ m, secondary = .err m)) →
      (dnsLookup (.ok (some l) st) secondary aQuery).dnsLookupText =
        "CNAME -> " ++ stripTrailingDot r.data ++ " [CNAME target NXDOMAIN]") ∧
    ((secondaryReportsNoSuchDomain secondary = false ∧ ∀ m, secondary ≠ .err m) →
      (dnsLookup (.ok (some l) st) secondary aQuery).dnsLookupText =
        "CNAME -> " ++ stripTrailingDot r.data) := by
  refine ⟨?_, ?_, ?_, ?_⟩
  · simp [dnsLookup, hfind]
  · simp [dnsLookup, hfind]
  · intro h
    rcases h with h | ⟨m, rfl⟩
    · cases secondary with
      | ok a s =>
        simp only [secondaryReportsNoSuchDomain] at h
        simp [dnsLookup, hfind, h]
      | err m => simp [dnsLookup, hfind]
    · simp [dnsLookup, hfind]
  · rintro ⟨h1, h2⟩
    cases secondary with
    | ok a s =>
      simp only [secondaryReportsNoSuchDomain] at h1
      simp [dnsLookup, hfind, h1]
    | err m => exact absurd rfl (h2 m)

/-- C6 (witness): a CNAME answer whose target's A check reports Status 3
yields CNAME, the dot-stripped target, and the dangling marker. -/
theorem C6_cname_dangling_witness :
    (dnsLookup (.ok (some [⟨5, "t.example.net."⟩]) (some 0)) (.ok none (some 3))
        (.ok none none)).dnsStatus = .CNAME ∧
    (dnsLookup (.ok (some [⟨5, "t.example.net."⟩]) (some 0)) (.ok none (some 3))
        (.ok none none)).cnameTarget = stripTrailingDot "t.example.net." ∧
    (dnsLookup (.ok (some [⟨5, "t.example.net."⟩]) (some 0)) (.ok none (some 3))
        (.ok none none)).dnsLookupText =
      "CNAME -> " ++ stripTrailingDot "t.example.net." ++ " [CNAME target NXDOMAIN]" := by
  have h := C6_cname_dangling [⟨5, "t.example.net."⟩] (some 0) ⟨5, "t.example.net."⟩
    (.ok none (some 3)) (.ok none none) rfl
  exact ⟨h.1, h.2.1, h.2.2.1 (Or.inl rfl)⟩

/-- C7 (counterexample): the claim that every Timeout / Connection Failed
termination carries httpStatusCode 0 is false: the source assigns
`result.status = resp.status` before `await resp.text()`, so when the
https fetch resolves with 200 but the body read rejects, and the http
attempt then fails, the probe returns "Connection Failed" with the
nonzero status 200. -/
theorem C7_counterexample :
    httpProbe (fun s => if s == "https" then .fetched 200 none .failErr else .failErr) =
      ⟨200, "", "Connection Failed", ""⟩ ∧
    (httpProbe (fun s =>
        if s == "https" then .fetched 200 none .failErr else .failErr)).status ≠ 0 :=
  ⟨rfl, by decide⟩

/-- C7 (amended): the availability probe never raises (the model is
total) and attempts https then http in that fixed order, stopping at the
first fully read response (status, body truncated to 50000 units, server
header); a rejection named AbortError terminates with error "Timeout" and
any other failure of the https attempt silently proceeds to the http
attempt, whose non-abort failure terminates with "Connection Failed" —
with httpStatusCode 0 on these error terminations unless some attempt's
fetch had already resolved (its status assigned) and only the body read
failed, in which case the last assigned status is reported instead. -/
theorem C7_probe_order (attempt : String → HttpAttempt) :
    (∀ st b sv, attempt "https" = .fetched st sv (.ok b) →
      httpProbe attempt = ⟨st, String.mk (b.toList.take 50000), "", sv.getD ""⟩) ∧
    (attempt "https" = .abortErr → httpProbe attempt = ⟨0, "", "Timeout", ""⟩) ∧
    (∀ st sv, attempt "https" = .fetched st sv .abortErr →
      httpProbe attempt = ⟨st, "", "Timeout", ""⟩) ∧
    (∀ s1, (attempt "https" = .failErr ∧ s1 = 0) ∨
        (∃ sv, attempt "https" = .fetched s1 sv .failErr) →
      (∀ st b sv, attempt "http" = .fetched st sv (.ok b) →
        httpProbe attempt = ⟨st, String.mk (b.toList.take 50000), "", sv.getD ""⟩) ∧
      (attempt "http" = .abortErr → httpProbe attempt = ⟨s1, "", "Timeout", ""⟩) ∧
      (∀ st sv, attempt "http" = .fetched st sv .abortErr →
        httpProbe attempt = ⟨st, "", "Timeout", ""⟩) ∧
      (attempt "http" = .failErr →
        httpProbe attempt = ⟨s1, "", "Connection Failed", ""⟩) ∧
      (∀ st sv, attempt "http" = .fetched st sv .failErr →
        httpProbe attempt = ⟨st, "", "Connection Failed", ""⟩)) := by
  refine ⟨?_, ?_, ?_, ?_⟩
  · intro st b sv h
    simp [httpProbe, probeGo, h]
  · intro h
    simp [httpProbe, probeGo, h]
  · intro st sv h
    simp [httpProbe, probeGo, h]
  · intro s1 h1
    have hcont : httpProbe attempt = probeGo attempt ["http"] ⟨s1, "", "", ""⟩ := by
      rcases h1 with ⟨h, rfl⟩ | ⟨sv, h⟩
      · simp [httpProbe, probeGo, h]
      · simp [httpProbe, probeGo, h]
    refine ⟨?_, ?_, ?_, ?_, ?_⟩
    · intro st b sv h2
      rw [hcont]
      simp [probeGo, h2]
    · intro h2
      rw [hcont]
      simp [probeGo, h2]
    · intro st sv h2
      rw [hcont]
      simp [probeGo, h2]
    · intro h2
      rw [hcont]
      simp [probeGo, h2]
    · intro st sv h2
      rw [hcont]
      simp [probeGo, h2]

/-- C7 (witness): an https attempt whose fetch resolved with 200 but whose
body read failed, followed by an http abort, terminates with Timeout and
the poisoned status 200. -/
theorem C7_probe_order_witness :
    httpProbe (fun s => if s == "https" then .fetched 200 none .failErr else .abortErr) =
      ⟨200, "", "Timeout", ""⟩ :=
  ((C7_probe_order (fun s =>
      if s == "https" then .fetched 200 none .failErr else .abortErr)).2.2.2
    200 (Or.inr ⟨none, rfl⟩)).2.1 rfl

/-- C8: the sample text parses to exactly
`["foo.example.com", "bar.example.com"]`: header skipped, protocol and
trailing slash stripped, quotes stripped, duplicate removed, order kept. -/
theorem C8_parse_example :
    parseDomainsFromText
        "Subdomain\nhttps://foo.example.com/\n\"bar.example.com\"\nbar.example.com" =
      ["foo.example.com", "bar.example.com"] := by
  decide

/-- C9: for every scanned hostname (nonempty, as every parsed candidate
is), the result's `cname` field is never empty, and when resolution
returned an empty resolved target the input hostname is substituted, so
the whole downstream pipeline (provider identification, fingerprint
matching, classification) behaves as if the resolved target were the
hostname itself. -/
theorem C9_cname_nonempty (fps : FingerprintCatalog) (pmap : ProviderCatalog)
    (subdomain : String) (dnsr : DnsOutcome) (probe : ProbeOutcome) (ts : String)
    (hsub : subdomain ≠ "") :
    (scanSubdomain fps pmap subdomain dnsr probe ts).cname ≠ "" ∧
    (dnsr.cnameTarget = "" →
      (scanSubdomain fps pmap subdomain dnsr probe ts).cname = subdomain ∧
      (scanSubdomain fps pmap subdomain dnsr probe ts).provider =
        identifyProvider pmap subdomain ∧
      scanSubdomain fps pmap subdomain dnsr probe ts =
        scanSubdomain fps pmap subdomain ⟨dnsr.dnsStatus, subdomain, dnsr.dnsLookupText⟩
          probe ts) := by
  constructor
  · show (if dnsr.cnameTarget == "" then subdomain else dnsr.cnameTarget) ≠ ""
    by_cases h : dnsr.cnameTarget = ""
    · simp [h, hsub]
    · simp [h]
  · intro h
    refine ⟨?_, ?_, ?_⟩
    · show (if dnsr.cnameTarget == "" then subdomain else dnsr.cnameTarget) = subdomain
      simp [h]
    · show identifyProvider pmap
          (if dnsr.cnameTarget == "" then subdomain else dnsr.cnameTarget) =
        identifyProvider pmap subdomain
      simp [h]
    · unfold scanSubdomain
      simp [h]

/-- C9 (witness): a concrete NXDOMAIN scan substitutes the input hostname
into the `cname` field. -/
theorem C9_cname_nonempty_witness :
    (scanSubdomain [] [] "a.example.com" ⟨.NXDOMAIN, "", "nx"⟩ ⟨0, "", "", ""⟩
        "t").cname ≠ "" ∧
    (scanSubdomain [] [] "a.example.com" ⟨.NXDOMAIN, "", "nx"⟩ ⟨0, "", "", ""⟩
        "t").cname = "a.example.com" := by
  have h := C9_cname_nonempty [] [] "a.example.com" ⟨.NXDOMAIN, "", "nx"⟩
    ⟨0, "", "", ""⟩ "t" (by decide)
  exact ⟨h.1, (h.2 rfl).1⟩

/-- C10: for every input signal tuple, the derived securityIssue string is
one of exactly the six catalogued values. -/
theorem C10_issue_codomain (dnsStatus : String) (httpStatus : Nat)
    (fingerprint riskLevel : String) :
    determineSecurityIssue dnsStatus httpStatus fingerprint riskLevel ∈
      ["Subdomain Takeover", "Dangling DNS Record", "DNS Hygiene Misconfiguration",
       "None - Active Service", "None - NXDOMAIN", "Potential Misconfiguration"] := by
  simp only [determineSecurityIssue]
  split_ifs <;> simp

end PhCare
